import Mathlib

/-!
Verification of the BI-assistant MCP server (`bi_server.py`, `server/bi_server.py`,
`db.py`) against its natural-language specification.

Python strings are modelled as `List Char`; the Python string methods the code
uses (`str.strip`, `str.upper`, `str.lower`, `str.startswith`, `str.replace`)
are embedded as structurally recursive functions over `List Char` so that every
definition evaluates by kernel reduction.
-/

/-- Python strings, modelled as lists of characters. -/
abbrev PyStr := List Char

/-- ASCII uppercase of one character, as Python `str.upper` acts on ASCII. -/
def pyToUpper (c : Char) : Char :=
  if 97 ≤ c.toNat ∧ c.toNat ≤ 122 then Char.ofNat (c.toNat - 32) else c

/-- ASCII lowercase of one character, as Python `str.lower` acts on ASCII. -/
def pyToLower (c : Char) : Char :=
  if 65 ≤ c.toNat ∧ c.toNat ≤ 90 then Char.ofNat (c.toNat + 32) else c

/-- The whitespace characters removed by Python `str.strip()`. -/
def isSpaceChar (c : Char) : Bool :=
  c.toNat = 32 || c.toNat = 9 || c.toNat = 10 || c.toNat = 13 || c.toNat = 11 || c.toNat = 12

/-- Python `str.strip()`: drop whitespace from both ends. -/
def pyStrip (s : PyStr) : PyStr :=
  ((s.dropWhile isSpaceChar).reverse.dropWhile isSpaceChar).reverse

/-- Python `s.upper()`. -/
def pyUpper (s : PyStr) : PyStr := s.map pyToUpper

/-- Python `s.lower()`. -/
def pyLower (s : PyStr) : PyStr := s.map pyToLower

/-- The leading whitespace-delimited token of a string (used to state the
claim about `run_sql`'s guard; the code itself never computes it). -/
def leadingToken (s : PyStr) : PyStr := s.takeWhile (fun c => !(isSpaceChar c))

/-- Outcome of `run_sql` up to the point where the store would be touched:
either a structured `{error: ...}` reply produced before any store access,
or the submission of a statement text to the store. -/
inductive SqlAction where
  | errorReply (msg : PyStr)
  | execute (q : PyStr)
deriving DecidableEq

/-- The store is touched by `run_sql` only in the `execute` case. -/
def SqlAction.executes : SqlAction → Bool
  | .execute _ => true
  | .errorReply _ => false

/-- The error message of a rejected call, if any. -/
def SqlAction.errorMsg : SqlAction → Option PyStr
  | .errorReply m => some m
  | .execute _ => none

/-- Guard phase of `run_sql` (src/bi_server.py lines 104-116): reject an
empty (after strip) query, uppercase the stripped query, reject unless it
starts with `SELECT` or `WITH`, otherwise submit the original query text. -/
def run_sql (query : PyStr) : SqlAction :=
  if pyStrip query = [] then .errorReply "Empty query provided".data
  else
    let query_upper := pyUpper (pyStrip query)
    if !("SELECT".data.isPrefixOf query_upper || "WITH".data.isPrefixOf query_upper) then
      .errorReply "Only SELECT and WITH queries are allowed".data
    else
      .execute query

/-- Claim C1, counterexample: the query `"WITHDRAW FUNDS"` is executed against
the store by `run_sql` although the leading token of its trimmed, uppercased
form is `WITHDRAW`, which is neither `SELECT` nor `WITH`: the guard is a
character-prefix check, not a leading-token check. -/
theorem run_sql_executes_withdraw :
    run_sql "WITHDRAW FUNDS".data = .execute "WITHDRAW FUNDS".data ∧
    leadingToken (pyUpper (pyStrip "WITHDRAW FUNDS".data)) ≠ "SELECT".data ∧
    leadingToken (pyUpper (pyStrip "WITHDRAW FUNDS".data)) ≠ "WITH".data := by
  decide

/-- Claim C1 (amended): `run_sql` permits a query exactly when the trimmed,
uppercased query begins with the character sequence `SELECT` or `WITH`
(a string-prefix test, not a whole-token test); every permitted query is
submitted verbatim, and every other query (including the empty one) receives
an `{error: ...}` reply without the store being touched. -/
theorem run_sql_prefix_guard (query : PyStr) :
    ((run_sql query).executes = true ↔
      (pyStrip query ≠ [] ∧
        ("SELECT".data.isPrefixOf (pyUpper (pyStrip query)) = true ∨
         "WITH".data.isPrefixOf (pyUpper (pyStrip query)) = true))) ∧
    ((run_sql query).executes = true → run_sql query = .execute query) ∧
    ((run_sql query).executes = false → ((run_sql query).errorMsg).isSome = true) := by
  by_cases hempty : pyStrip query = []
  · simp [run_sql, hempty, SqlAction.executes, SqlAction.errorMsg]
  · cases hsel : "SELECT".data.isPrefixOf (pyUpper (pyStrip query)) <;>
      cases hwith : "WITH".data.isPrefixOf (pyUpper (pyStrip query)) <;>
        simp [run_sql, hempty, hsel, hwith, SqlAction.executes, SqlAction.errorMsg]

/-- Claim C1, witness: concrete instance of `run_sql_prefix_guard` at the
rejected query `"DROP TABLE students"`. -/
theorem run_sql_prefix_guard_witness :
    ((run_sql "DROP TABLE students".data).errorMsg).isSome = true :=
  (run_sql_prefix_guard "DROP TABLE students".data).2.2 (by decide)

/-! ### The `campaign_performance` view (src/db.py lines 123-160) -/

/-- SQLite `ROUND(x, 2)`: round to two decimal places (numerics modelled
exactly as rationals). -/
def round2 (x : ℚ) : ℚ := (round (x * 100) : ℚ) / 100

/-- SQL division, recording a division-by-zero fault as `none`. -/
def sqlDiv (a b : ℚ) : Option ℚ := if b = 0 then none else some (a / b)

/-- One joined input row of the view: Product x CampaignMonth x
MarketingMetrics x Budget (`INTEGER` volume columns, `REAL` money columns). -/
structure CampaignData where
  product_name : PyStr
  category : PyStr
  month_number : Int
  year : Int
  campaign_name : PyStr
  impressions : Nat
  clicks : Nat
  conversions : Nat
  revenue : ℚ
  allocated_budget : ℚ
  actual_spend : ℚ
deriving DecidableEq

/-- One row of the `campaign_performance` view: the joined base columns plus
the six computed metric columns (`none` marks a division fault, which the
view's `CASE` guards are meant to rule out). -/
structure PerfRow where
  product_name : PyStr
  category : PyStr
  month_number : Int
  year : Int
  campaign_name : PyStr
  impressions : Nat
  clicks : Nat
  conversions : Nat
  revenue : ℚ
  allocated_budget : ℚ
  actual_spend : ℚ
  ctr_percentage : Option ℚ
  roas : Option ℚ
  roi : Option ℚ
  cpa : Option ℚ
  cpc : Option ℚ
  cpm : Option ℚ
deriving DecidableEq

/-- The view's SELECT list: each metric is `ROUND(CASE WHEN <guards> THEN
<quotient> ELSE 0 END, 2)`, exactly as in the CREATE VIEW statement. -/
def campaign_performance (d : CampaignData) : PerfRow :=
  { product_name := d.product_name
    category := d.category
    month_number := d.month_number
    year := d.year
    campaign_name := d.campaign_name
    impressions := d.impressions
    clicks := d.clicks
    conversions := d.conversions
    revenue := d.revenue
    allocated_budget := d.allocated_budget
    actual_spend := d.actual_spend
    ctr_percentage :=
      (if d.clicks > 0 ∧ d.impressions > 0 then
        (sqlDiv (d.clicks : ℚ) (d.impressions : ℚ)).map (· * 100)
      else some 0).map round2
    roas :=
      (if d.actual_spend > 0 then sqlDiv d.revenue d.actual_spend else some 0).map round2
    roi :=
      (if d.actual_spend > 0 then sqlDiv (d.revenue - d.actual_spend) d.actual_spend
       else some 0).map round2
    cpa :=
      (if d.conversions > 0 ∧ d.actual_spend > 0 then
        sqlDiv d.actual_spend (d.conversions : ℚ)
      else some 0).map round2
    cpc :=
      (if d.clicks > 0 ∧ d.actual_spend > 0 then sqlDiv d.actual_spend (d.clicks : ℚ)
       else some 0).map round2
    cpm :=
      (if d.impressions > 0 ∧ d.actual_spend > 0 then
        (sqlDiv d.actual_spend (d.impressions : ℚ)).map (· * 1000)
      else some 0).map round2 }

theorem round2_zero : round2 0 = 0 := by
  simp [round2]

/-- Claim C3: for any joined row with `actual_spend = 0` and non-negative
inputs, the view's `roas`, `roi`, `cpc`, `cpm` columns are exactly `0`, and
none of the six metric formulas performs a division by zero. -/
theorem campaign_performance_zero_spend (d : CampaignData)
    (hspend : d.actual_spend = 0) (hrev : 0 ≤ d.revenue) :
    (campaign_performance d).roas = some 0 ∧
    (campaign_performance d).roi = some 0 ∧
    (campaign_performance d).cpc = some 0 ∧
    (campaign_performance d).cpm = some 0 ∧
    ((campaign_performance d).ctr_percentage).isSome = true ∧
    ((campaign_performance d).cpa).isSome = true := by
  have h0 : ¬ (0:ℚ) > 0 := by norm_num
  refine ⟨?_, ?_, ?_, ?_, ?_, ?_⟩ <;>
    simp only [campaign_performance, hspend, h0, if_false, and_false, if_neg, round2_zero,
      Option.map_some]
  · simp [round2_zero]
  · simp [round2_zero]
  · simp [round2_zero]
  · simp [round2_zero]
  · by_cases hc : d.clicks > 0 ∧ d.impressions > 0
    · have himp : ((d.impressions : ℚ)) ≠ 0 := by
        exact_mod_cast Nat.pos_iff_ne_zero.mp hc.2
      simp [hc, sqlDiv, himp]
    · simp [hc]
  · simp

/-- Claim C3, witness: a concrete row with `actual_spend = 0`. -/
theorem campaign_performance_zero_spend_witness :
    (campaign_performance
      { product_name := "Product A".data, category := "Electronics".data,
        month_number := 5, year := 2024, campaign_name := "C5".data,
        impressions := 1000, clicks := 40, conversions := 3, revenue := 250,
        allocated_budget := 500, actual_spend := 0 }).roas = some 0 ∧
    (campaign_performance
      { product_name := "Product A".data, category := "Electronics".data,
        month_number := 5, year := 2024, campaign_name := "C5".data,
        impressions := 1000, clicks := 40, conversions := 3, revenue := 250,
        allocated_budget := 500, actual_spend := 0 }).roi = some 0 ∧
    (campaign_performance
      { product_name := "Product A".data, category := "Electronics".data,
        month_number := 5, year := 2024, campaign_name := "C5".data,
        impressions := 1000, clicks := 40, conversions := 3, revenue := 250,
        allocated_budget := 500, actual_spend := 0 }).cpc = some 0 ∧
    (campaign_performance
      { product_name := "Product A".data, category := "Electronics".data,
        month_number := 5, year := 2024, campaign_name := "C5".data,
        impressions := 1000, clicks := 40, conversions := 3, revenue := 250,
        allocated_budget := 500, actual_spend := 0 }).cpm = some 0 ∧
    ((campaign_performance
      { product_name := "Product A".data, category := "Electronics".data,
        month_number := 5, year := 2024, campaign_name := "C5".data,
        impressions := 1000, clicks := 40, conversions := 3, revenue := 250,
        allocated_budget := 500, actual_spend := 0 }).ctr_percentage).isSome = true ∧
    ((campaign_performance
      { product_name := "Product A".data, category := "Electronics".data,
        month_number := 5, year := 2024, campaign_name := "C5".data,
        impressions := 1000, clicks := 40, conversions := 3, revenue := 250,
        allocated_budget := 500, actual_spend := 0 }).cpa).isSome = true :=
  campaign_performance_zero_spend _ rfl (by norm_num)

/-- Claim C8: for every view row, `ctr_percentage` is
`round2 (clicks/impressions*100)` when `impressions > 0` and `0` when
`impressions = 0`; in particular a row with positive impressions and zero
clicks has `ctr_percentage = 0`. -/
theorem campaign_performance_ctr (d : CampaignData) :
    (campaign_performance d).ctr_percentage =
      some (if d.impressions > 0 then round2 ((d.clicks : ℚ) / (d.impressions : ℚ) * 100)
            else 0) ∧
    (d.impressions > 0 → d.clicks = 0 →
      (campaign_performance d).ctr_percentage = some 0) := by
  constructor
  · by_cases himp : d.impressions > 0
    · by_cases hclk : d.clicks > 0
      · have himp' : ((d.impressions : ℚ)) ≠ 0 := by
          exact_mod_cast Nat.pos_iff_ne_zero.mp himp
        simp [campaign_performance, hclk, himp, sqlDiv, himp']
      · have hc0 : d.clicks = 0 := Nat.eq_zero_of_not_pos hclk
        simp [campaign_performance, hclk, himp, hc0, round2_zero]
    · simp [campaign_performance, himp, round2_zero]
  · intro himp hclk
    simp [campaign_performance, hclk, round2_zero]

/-- Claim C8, witness: a concrete row with positive impressions and zero
clicks has `ctr_percentage = 0`. -/
theorem campaign_performance_ctr_witness :
    (campaign_performance
      { product_name := "Product B".data, category := "Fashion".data,
        month_number := 3, year := 2024, campaign_name := "C3".data,
        impressions := 5000, clicks := 0, conversions := 0, revenue := 0,
        allocated_budget := 900, actual_spend := 800 }).ctr_percentage = some 0 :=
  (campaign_performance_ctr _).2 (by norm_num) rfl

/-! ### `get_campaign_metrics` (src/bi_server.py lines 126-158) -/

/-- Bytewise strict lexicographic order on strings, the order SQLite's
`ORDER BY` uses on `TEXT` columns. -/
def strLt : PyStr → PyStr → Bool
  | [], [] => false
  | [], _ :: _ => true
  | _ :: _, [] => false
  | a :: as, b :: bs => decide (a.toNat < b.toNat) || (decide (a.toNat = b.toNat) && strLt as bs)

/-- Pointwise byte equality of strings (the tie case of `strLt`). -/
def strCharsEq : PyStr → PyStr → Bool
  | [], [] => true
  | a :: as, b :: bs => decide (a.toNat = b.toNat) && strCharsEq as bs
  | _, _ => false

theorem strCharsEq_refl (s : PyStr) : strCharsEq s s = true := by
  induction s with
  | nil => rfl
  | cons a as ih => simp [strCharsEq, ih]

theorem strLt_trichotomy (s t : PyStr) :
    strLt s t = true ∨ strCharsEq s t = true ∨ strLt t s = true := by
  induction s generalizing t with
  | nil => cases t <;> simp [strLt, strCharsEq]
  | cons a as ih =>
    cases t with
    | nil => simp [strLt, strCharsEq]
    | cons b bs =>
      rcases Nat.lt_trichotomy a.toNat b.toNat with h | h | h
      · exact Or.inl (by simp [strLt, h])
      · rcases ih bs with h2 | h2 | h2
        · exact Or.inl (by simp [strLt, h, h2])
        · exact Or.inr (Or.inl (by simp [strCharsEq, h, h2]))
        · exact Or.inr (Or.inr (by simp [strLt, h.symm, h2]))
      · exact Or.inr (Or.inr (by simp [strLt, h]))

theorem strLt_trans {s t u : PyStr} (h1 : strLt s t = true) (h2 : strLt t u = true) :
    strLt s u = true := by
  induction s generalizing t u with
  | nil =>
    cases t with
    | nil => simp [strLt] at h1
    | cons b bs => cases u with
      | nil => simp [strLt] at h2
      | cons c cs => simp [strLt]
  | cons a as ih =>
    cases t with
    | nil => simp [strLt] at h1
    | cons b bs =>
      cases u with
      | nil => simp [strLt] at h2
      | cons c cs =>
        simp only [strLt, Bool.or_eq_true, Bool.and_eq_true, decide_eq_true_eq] at h1 h2 ⊢
        rcases h1 with h1 | ⟨h1e, h1r⟩ <;> rcases h2 with h2 | ⟨h2e, h2r⟩
        · exact Or.inl (Nat.lt_trans h1 h2)
        · exact Or.inl (h2e ▸ h1)
        · exact Or.inl (h1e ▸ h2)
        · exact Or.inr ⟨h1e.trans h2e, ih h1r h2r⟩

theorem strLt_of_lt_of_eq {s t u : PyStr} (h1 : strLt s t = true)
    (h2 : strCharsEq t u = true) : strLt s u = true := by
  induction s generalizing t u with
  | nil =>
    cases t with
    | nil => simp [strLt] at h1
    | cons b bs => cases u with
      | nil => simp [strCharsEq] at h2
      | cons c cs => simp [strLt]
  | cons a as ih =>
    cases t with
    | nil => simp [strLt] at h1
    | cons b bs =>
      cases u with
      | nil => simp [strCharsEq] at h2
      | cons c cs =>
        simp only [strLt, strCharsEq, Bool.or_eq_true, Bool.and_eq_true,
          decide_eq_true_eq] at h1 h2 ⊢
        rcases h1 with h1 | ⟨h1e, h1r⟩
        · exact Or.inl (h2.1 ▸ h1)
        · exact Or.inr ⟨h1e.trans h2.1, ih h1r h2.2⟩

theorem strLt_of_eq_of_lt {s t u : PyStr} (h1 : strCharsEq s t = true)
    (h2 : strLt t u = true) : strLt s u = true := by
  induction s generalizing t u with
  | nil =>
    cases t with
    | nil => cases u with
      | nil => simp [strLt] at h2
      | cons c cs => simp [strLt]
    | cons b bs => simp [strCharsEq] at h1
  | cons a as ih =>
    cases t with
    | nil => simp [strCharsEq] at h1
    | cons b bs =>
      cases u with
      | nil => simp [strLt] at h2
      | cons c cs =>
        simp only [strLt, strCharsEq, Bool.or_eq_true, Bool.and_eq_true,
          decide_eq_true_eq] at h1 h2 ⊢
        rcases h2 with h2 | ⟨h2e, h2r⟩
        · exact Or.inl (h1.1 ▸ h2)
        · exact Or.inr ⟨h1.1.trans h2e, ih h1.2 h2r⟩

theorem strCharsEq_trans {s t u : PyStr} (h1 : strCharsEq s t = true)
    (h2 : strCharsEq t u = true) : strCharsEq s u = true := by
  induction s generalizing t u with
  | nil =>
    cases t with
    | nil => exact (by cases u with | nil => rfl | cons c cs => simp [strCharsEq] at h2)
    | cons b bs => simp [strCharsEq] at h1
  | cons a as ih =>
    cases t with
    | nil => simp [strCharsEq] at h1
    | cons b bs =>
      cases u with
      | nil => simp [strCharsEq] at h2
      | cons c cs =>
        simp only [strCharsEq, Bool.and_eq_true, decide_eq_true_eq] at h1 h2 ⊢
        exact ⟨h1.1.trans h2.1, ih h1.2 h2.2⟩

theorem strCharsEq_symm {s t : PyStr} (h : strCharsEq s t = true) :
    strCharsEq t s = true := by
  induction s generalizing t with
  | nil => cases t with
    | nil => rfl
    | cons b bs => simp [strCharsEq] at h
  | cons a as ih =>
    cases t with
    | nil => simp [strCharsEq] at h
    | cons b bs =>
      simp only [strCharsEq, Bool.and_eq_true, decide_eq_true_eq] at h ⊢
      exact ⟨h.1.symm, ih h.2⟩

/-- The comparator realizing `ORDER BY product_name, month_number` ascending. -/
def rowLE (a b : PerfRow) : Bool :=
  strLt a.product_name b.product_name ||
    (strCharsEq a.product_name b.product_name && decide (a.month_number ≤ b.month_number))

theorem rowLE_trans (a b c : PerfRow) (h1 : rowLE a b) (h2 : rowLE b c) : rowLE a c := by
  simp only [rowLE, Bool.or_eq_true, Bool.and_eq_true, decide_eq_true_eq] at h1 h2 ⊢
  rcases h1 with h1 | ⟨h1e, h1m⟩ <;> rcases h2 with h2 | ⟨h2e, h2m⟩
  · exact Or.inl (strLt_trans h1 h2)
  · exact Or.inl (strLt_of_lt_of_eq h1 h2e)
  · exact Or.inl (strLt_of_eq_of_lt h1e h2)
  · exact Or.inr ⟨strCharsEq_trans h1e h2e, le_trans h1m h2m⟩

theorem rowLE_total (a b : PerfRow) : rowLE a b || rowLE b a := by
  simp only [rowLE, Bool.or_eq_true, Bool.and_eq_true, decide_eq_true_eq]
  rcases strLt_trichotomy a.product_name b.product_name with h | h | h
  · exact Or.inl (Or.inl h)
  · rcases le_total a.month_number b.month_number with hm | hm
    · exact Or.inl (Or.inr ⟨h, hm⟩)
    · exact Or.inr (Or.inr ⟨strCharsEq_symm h, hm⟩)
  · exact Or.inr (Or.inl h)

/-- One SQL condition appended to the conjunctive WHERE clause of
`get_campaign_metrics`, together with its bound parameter. -/
inductive Cond where
  | yearEq (y : Int)
  | productEqCI (p : PyStr)
  | monthEq (m : Int)
deriving DecidableEq

/-- Python truthiness of the optional `month : int` parameter:
`None` and `0` are falsy, every other int is truthy. -/
def monthTruthy : Option Int → Bool
  | none => false
  | some m => decide (m ≠ 0)

/-- The condition list built by `get_campaign_metrics` (lines 132-141):
`year = ?` always; `LOWER(product_name) = LOWER(?)` appended only when
`product` is truthy; `month_number = ?` appended only when `month` is truthy. -/
def buildConditions (product : PyStr) (month : Option Int) (year : Int) : List Cond :=
  let conds := [Cond.yearEq year]
  let conds := if product ≠ [] then conds ++ [Cond.productEqCI product] else conds
  if monthTruthy month then conds ++ [Cond.monthEq (month.getD 0)] else conds

/-- SQLite evaluation of one condition against a view row. -/
def evalCond (r : PerfRow) : Cond → Bool
  | .yearEq y => decide (r.year = y)
  | .productEqCI p => decide (pyLower r.product_name = pyLower p)
  | .monthEq m => decide (r.month_number = m)

/-- Reply shape of the aggregate operations: `{data, row_count}` or
`{error: ...}`. -/
structure QueryResult where
  data : List PerfRow
  row_count : Nat
deriving DecidableEq

inductive AggReply where
  | ok (result : QueryResult)
  | error (msg : PyStr)
deriving DecidableEq

/-- Model of `get_campaign_metrics`: build the conjunctive filter, run
`SELECT * FROM campaign_performance WHERE <conds> ORDER BY product_name,
month_number` against the store (modelled as the list of view rows `db`),
and reply `{data, row_count}`. -/
def get_campaign_metrics (db : List PerfRow) (product : PyStr) (month : Option Int)
    (year : Int) : AggReply :=
  let conds := buildConditions product month year
  let rows := (db.filter (fun r => conds.all (evalCond r))).mergeSort rowLE
  .ok { data := rows, row_count := rows.length }

/-- Declarative meaning of the filter that `get_campaign_metrics` builds. -/
def matchesFilter (product : PyStr) (month : Option Int) (year : Int) (r : PerfRow) : Prop :=
  r.year = year ∧
  (product ≠ [] → pyLower r.product_name = pyLower product) ∧
  (monthTruthy month = true → r.month_number = month.getD 0)

instance (product : PyStr) (month : Option Int) (year : Int) (r : PerfRow) :
    Decidable (matchesFilter product month year r) := by
  unfold matchesFilter; infer_instance

theorem evalConds_iff (product : PyStr) (month : Option Int) (year : Int) (r : PerfRow) :
    (buildConditions product month year).all (evalCond r) = true ↔
      matchesFilter product month year r := by
  by_cases hp : product = [] <;> cases hm : monthTruthy month <;>
    simp [buildConditions, matchesFilter, evalCond, hp, hm]

/-- Claim C4: `get_campaign_metrics` always includes the year condition,
includes the case-insensitive product condition only when a product was
supplied, includes the month condition only when a month was supplied;
the reply holds exactly the matching rows ordered by
`(product_name, month_number)` ascending with `row_count` their number;
and a filter matching zero rows yields `{data: [], row_count: 0}`,
not an error. -/
theorem get_campaign_metrics_spec (db : List PerfRow) (product : PyStr)
    (month : Option Int) (year : Int) :
    (Cond.yearEq year ∈ buildConditions product month year) ∧
    (∀ p, Cond.productEqCI p ∈ buildConditions product month year →
      product ≠ [] ∧ p = product) ∧
    (∀ m, Cond.monthEq m ∈ buildConditions product month year →
      monthTruthy month = true ∧ month.getD 0 = m) ∧
    (∃ rows, get_campaign_metrics db product month year = .ok ⟨rows, rows.length⟩ ∧
      (∀ r, r ∈ rows ↔ r ∈ db ∧ matchesFilter product month year r) ∧
      rows.Pairwise (fun a b => rowLE a b = true)) ∧
    ((∀ r ∈ db, ¬ matchesFilter product month year r) →
      get_campaign_metrics db product month year = .ok ⟨[], 0⟩) := by
  refine ⟨?_, ?_, ?_, ?_, ?_⟩
  · by_cases hp : product = [] <;> cases hm : monthTruthy month <;>
      simp [buildConditions, hp, hm]
  · intro p hp
    by_cases hprod : product = [] <;> cases hm : monthTruthy month <;>
      simp_all [buildConditions]
  · intro m hm
    by_cases hprod : product = [] <;> cases hmt : monthTruthy month <;>
      simp_all [buildConditions]
  · refine ⟨((db.filter (fun r =>
      (buildConditions product month year).all (evalCond r))).mergeSort rowLE), rfl, ?_, ?_⟩
    · intro r
      rw [List.mem_mergeSort, List.mem_filter, evalConds_iff]
    · have h := @List.sorted_mergeSort PerfRow rowLE rowLE_trans rowLE_total
        (db.filter (fun r => (buildConditions product month year).all (evalCond r)))
      exact h.imp (fun hab => hab)
  · intro hnone
    have hfil : db.filter (fun r =>
        (buildConditions product month year).all (evalCond r)) = [] := by
      rw [List.filter_eq_nil_iff]
      intro r hr
      rw [Bool.not_eq_true, ← Bool.not_eq_true, evalConds_iff]
      exact hnone r hr
    simp [get_campaign_metrics, hfil]

/-- A sample view row used by concrete witnesses. -/
def sampleRow : PerfRow :=
  campaign_performance
    { product_name := "Product A".data, category := "Electronics".data,
      month_number := 5, year := 2024, campaign_name := "C5".data,
      impressions := 1000, clicks := 40, conversions := 4, revenue := 1000,
      allocated_budget := 600, actual_spend := 500 }

/-- Claim C4, witness: with one row of year 2024 in the store, a query for
year 2001 with no optional filters returns `{data: [], row_count: 0}`. -/
theorem get_campaign_metrics_spec_witness :
    get_campaign_metrics [sampleRow] [] none 2001 = .ok ⟨[], 0⟩ :=
  (get_campaign_metrics_spec [sampleRow] [] none 2001).2.2.2.2
    (by decide)

/-! ### `calculate_metric` (src/bi_server.py lines 160-191) and
`compute_metric` (src/server/bi_server.py lines 127-149) -/

/-- The fixed metric allow-list of `calculate_metric`. -/
def valid_metrics : List PyStr :=
  ["roas".data, "roi".data, "ctr_percentage".data, "cpa".data, "cpc".data, "cpm".data]

/-- The single-row lookup query as assembled by the code: the metric text is
interpolated into the SELECT projection list, while product, month and year
are bound through `?` placeholders. -/
structure MetricQuery where
  projectionMetric : PyStr
  paramProduct : PyStr
  paramMonth : Int
  paramYear : Int
deriving DecidableEq

/-- Outcome of a metric lookup up to the point where the store would be
queried: a validation error produced before any store access, or the
constructed query. -/
inductive MetricAction where
  | missingParams (msg : PyStr)
  | invalidMetric (msg : PyStr)
  | query (q : MetricQuery)
deriving DecidableEq

/-- The store is reached only in the `query` case. -/
def MetricAction.queriesStore : MetricAction → Bool
  | .query _ => true
  | .missingParams _ => false
  | .invalidMetric _ => false

/-- The validation-error message, if any. -/
def MetricAction.errorMsg : MetricAction → Option PyStr
  | .missingParams m => some m
  | .invalidMetric m => some m
  | .query _ => none

/-- Model of `calculate_metric`: `if not all([product, month, metric])` (Python
truthiness: empty string and `0` are falsy), then the allow-list check on
`metric.lower()`, then the query with `{metric}` interpolated verbatim. -/
def calculate_metric (product : PyStr) (month : Int) (metric : PyStr)
    (year : Int) : MetricAction :=
  if product = [] ∨ month = 0 ∨ metric = [] then
    .missingParams "product, month, and metric are required".data
  else if pyLower metric ∉ valid_metrics then
    .invalidMetric "Invalid metric. Valid options: roas, roi, ctr_percentage, cpa, cpc, cpm".data
  else
    .query { projectionMetric := metric, paramProduct := product,
             paramMonth := month, paramYear := year }

/-- Model of `compute_metric` of the `server/` variant: only the truthiness check on
the three parameters; no metric allow-list exists, and `{metric}` is
interpolated into the projection unvalidated. -/
def compute_metric (product : PyStr) (month : Int) (metric : PyStr)
    (year : Int) : MetricAction :=
  if product = [] ∨ month = 0 ∨ metric = [] then
    .missingParams "product, month, metric required".data
  else
    .query { projectionMetric := metric, paramProduct := product,
             paramMonth := month, paramYear := year }

/-- Claim C2, counterexample: the call `calculate_metric("Product A", 5,
"ROAS", 2024)` passes validation and reaches query construction, but the text
interpolated into the projection list is the caller-supplied string `"ROAS"`,
which is not a member of the allow-list (the list holds only the lowercase
names). -/
theorem calculate_metric_interpolates_caller_text :
    calculate_metric "Product A".data 5 "ROAS".data 2024 =
      .query { projectionMetric := "ROAS".data, paramProduct := "Product A".data,
               paramMonth := 5, paramYear := 2024 } ∧
    "ROAS".data ∉ valid_metrics := by
  decide

/-- Claim C2 (amended): whenever `calculate_metric` reaches query
construction, the text interpolated into the projection list is the
caller-supplied metric string itself, and its lowercasing is a member of the
fixed allow-list (so the interpolated text can differ from an allow-list
member only in letter case; the `server/` variant `compute_metric` performs
no such validation at all). -/
theorem calculate_metric_projection_validated (product : PyStr) (month : Int)
    (metric : PyStr) (year : Int) (q : MetricQuery)
    (h : calculate_metric product month metric year = .query q) :
    q.projectionMetric = metric ∧ pyLower metric ∈ valid_metrics := by
  by_cases h1 : product = [] ∨ month = 0 ∨ metric = []
  · simp [calculate_metric, h1] at h
  · by_cases h2 : pyLower metric ∈ valid_metrics
    · refine ⟨?_, h2⟩
      simp only [calculate_metric, h1, if_false, h2, not_true, if_neg, ite_not] at h
      cases h
      rfl
    · simp [calculate_metric, h1, h2] at h

/-- Claim C2, witness: concrete instance of
`calculate_metric_projection_validated` at the metric `"roas"`. -/
theorem calculate_metric_projection_validated_witness :
    (MetricQuery.mk "roas".data "Product A".data 5 2024).projectionMetric = "roas".data ∧
    pyLower "roas".data ∈ valid_metrics :=
  calculate_metric_projection_validated "Product A".data 5 "roas".data 2024
    (MetricQuery.mk "roas".data "Product A".data 5 2024) (by decide)

/-- Claim C5, counterexample: the `server/` variant `compute_metric` submits
the invalid metric `"bogus"` to the store instead of rejecting it: it reaches
query construction although `"bogus"` is not in the allow-list. -/
theorem compute_metric_accepts_invalid_metric :
    compute_metric "Product A".data 5 "bogus".data 2024 =
      .query { projectionMetric := "bogus".data, paramProduct := "Product A".data,
               paramMonth := 5, paramYear := 2024 } ∧
    pyLower "bogus".data ∉ valid_metrics := by
  decide

/-- Claim C5 (amended): in `calculate_metric` (the root server), every call
whose metric identifier is not case-insensitively in the allow-list returns a
validation-error reply without the store being queried, regardless of the
product, month and year arguments; the `server/` variant `compute_metric`
does not validate the metric. -/
theorem calculate_metric_rejects_invalid_metric (product : PyStr) (month : Int)
    (metric : PyStr) (year : Int) (h : pyLower metric ∉ valid_metrics) :
    (calculate_metric product month metric year).queriesStore = false ∧
    ((calculate_metric product month metric year).errorMsg).isSome = true := by
  by_cases h1 : product = [] ∨ month = 0 ∨ metric = []
  · simp [calculate_metric, h1, MetricAction.queriesStore, MetricAction.errorMsg]
  · simp [calculate_metric, h1, h, MetricAction.queriesStore, MetricAction.errorMsg]

/-- Claim C5, witness: concrete instance of
`calculate_metric_rejects_invalid_metric` at the metric `"bogus"`. -/
theorem calculate_metric_rejects_invalid_metric_witness :
    (calculate_metric "Product A".data 5 "bogus".data 2024).queriesStore = false ∧
    ((calculate_metric "Product A".data 5 "bogus".data 2024).errorMsg).isSome = true :=
  calculate_metric_rejects_invalid_metric "Product A".data 5 "bogus".data 2024 (by decide)

/-- Claim C10: a call with `month = 0`, a non-empty product and a valid
metric is answered with the missing-parameter error (the Python truthiness
test `not all([product, month, metric])` cannot distinguish a supplied `0`
from an omitted month), in both server variants, and the store is not
queried. -/
theorem calculate_metric_month_zero (product : PyStr) (metric : PyStr) (year : Int)
    (hp : product ≠ []) (hm : pyLower metric ∈ valid_metrics) :
    calculate_metric product 0 metric year =
      .missingParams "product, month, and metric are required".data ∧
    compute_metric product 0 metric year =
      .missingParams "product, month, metric required".data := by
  constructor
  · simp [calculate_metric]
  · simp [compute_metric]

/-- Claim C10, witness: the concrete call `calculate_metric("Product A", 0,
"roas", 2024)` (and its `server/` counterpart) returns the
missing-parameter error. -/
theorem calculate_metric_month_zero_witness :
    calculate_metric "Product A".data 0 "roas".data 2024 =
      .missingParams "product, month, and metric are required".data ∧
    compute_metric "Product A".data 0 "roas".data 2024 =
      .missingParams "product, month, metric required".data :=
  calculate_metric_month_zero "Product A".data "roas".data 2024 (by decide) (by decide)

/-! ### `_get_db_path` (src/bi_server.py lines 24-31) -/

/-- Whether `pat` occurs somewhere in the string as a contiguous substring. -/
def occursIn (pat : PyStr) : PyStr → Bool
  | [] => pat.isEmpty
  | c :: rest => pat.isPrefixOf (c :: rest) || occursIn pat rest

/-- Fueled scan of Python `s.replace(pat, "")`: left to right, each
non-overlapping occurrence of `pat` is removed; one unit of fuel is spent
per character consumed, so `s.length` fuel always suffices. -/
def removeAllFuel (pat : PyStr) : Nat → PyStr → PyStr
  | 0, s => s
  | _ + 1, [] => []
  | fuel + 1, c :: rest =>
    if pat.isPrefixOf (c :: rest) ∧ pat ≠ [] then
      removeAllFuel pat fuel (rest.drop (pat.length - 1))
    else
      c :: removeAllFuel pat fuel rest

/-- Python `s.replace(pat, "")`. -/
def removeAll (pat s : PyStr) : PyStr := removeAllFuel pat s.length s

/-- Model of `_get_db_path`'s locator normalization:
`db_url.replace("sqlite:///", "").replace("sqlite://", "")`. -/
def get_db_path (db_url : PyStr) : PyStr :=
  removeAll "sqlite://".data (removeAll "sqlite:///".data db_url)

theorem removeAllFuel_of_not_occurs (pat : PyStr) :
    ∀ (fuel : Nat) (s : PyStr), occursIn pat s = false → removeAllFuel pat fuel s = s := by
  intro fuel
  induction fuel with
  | zero => intro s _; rfl
  | succ n ih =>
    intro s hs
    cases s with
    | nil => rfl
    | cons c rest =>
      simp only [occursIn, Bool.or_eq_false_iff] at hs
      rw [removeAllFuel, if_neg (by simp [hs.1]), ih rest hs.2]

theorem removeAll_of_not_occurs {pat s : PyStr} (h : occursIn pat s = false) :
    removeAll pat s = s :=
  removeAllFuel_of_not_occurs pat s.length s h

/-- Claim C6, counterexample: the locator `"/tmp/sqlite://x.db"` does not
start with either scheme prefix, yet `_get_db_path` does not hand it to the
storage layer unchanged: `str.replace` removes the substring `"sqlite://"`
from the middle of the string, yielding `"/tmp/x.db"`. -/
theorem get_db_path_changes_inner_occurrence :
    get_db_path "/tmp/sqlite://x.db".data = "/tmp/x.db".data ∧
    "sqlite:///".data.isPrefixOf "/tmp/sqlite://x.db".data = false ∧
    "sqlite://".data.isPrefixOf "/tmp/sqlite://x.db".data = false := by
  decide

/-- Claim C6 (amended): `_get_db_path` removes every occurrence of
`"sqlite:///"` and then every occurrence of `"sqlite://"` anywhere in the
locator, not only at its start; a locator in which neither string occurs as
a substring is handed to the storage layer unchanged. -/
theorem get_db_path_no_occurrence_unchanged (db_url : PyStr)
    (h3 : occursIn "sqlite:///".data db_url = false)
    (h2 : occursIn "sqlite://".data db_url = false) :
    get_db_path db_url = db_url := by
  unfold get_db_path
  rw [removeAll_of_not_occurs h3, removeAll_of_not_occurs h2]

/-- Claim C6, witness: concrete instance of
`get_db_path_no_occurrence_unchanged` at a plain filesystem path. -/
theorem get_db_path_no_occurrence_unchanged_witness :
    get_db_path "/data/bi_assistant.db".data = "/data/bi_assistant.db".data :=
  get_db_path_no_occurrence_unchanged "/data/bi_assistant.db".data (by decide) (by decide)

/-! ### `_init_db` (src/bi_server.py lines 33-42) -/

/-- One call to `_init_db` over the stored handle `self.db` (`none` =
Unconnected, `some h` = Connected): if a handle is stored the call is a
no-op on the state; otherwise the open is attempted, whose outcome the
`connect` argument supplies; a raised open leaves the state unchanged.
Returns the reply (the available handle, or the propagated error) together
with the state after the call. -/
def init_db {H : Type} (st : Option H) (connect : Except PyStr H) :
    Except PyStr H × Option H :=
  match st with
  | some h => (.ok h, some h)
  | none =>
    match connect with
    | .ok h => (.ok h, some h)
    | .error e => (.error e, none)

/-- A sequence of `_init_db` calls, the `i`-th pulling the `i`-th open
outcome of the environment; returns all replies and the final state. -/
def run_calls {H : Type} (st : Option H) : List (Except PyStr H) →
    List (Except PyStr H) × Option H
  | [] => ([], st)
  | c :: cs =>
    let step := init_db st c
    let rest := run_calls step.2 cs
    (step.1 :: rest.1, rest.2)

/-- Claim C7: the connection state is monotonic Unconnected → Connected.
A first successful open stores the handle; once a handle `h` is stored,
any sequence of further calls returns `h` every time and never replaces the
handle; a failed open leaves the state Unconnected, and as long as opens
keep failing every call re-attempts and reports the corresponding failure. -/
theorem init_db_monotonic (H : Type) (h : H) (c : Except PyStr H)
    (cs : List (Except PyStr H)) (e : PyStr) (es : List PyStr) :
    init_db (none : Option H) (.ok h) = (.ok h, some h) ∧
    init_db (none : Option H) (.error e) = (.error e, none) ∧
    init_db (some h) c = (.ok h, some h) ∧
    run_calls (some h) cs = (cs.map fun _ => .ok h, some h) ∧
    run_calls (none : Option H) (es.map Except.error) =
      (es.map Except.error, none) := by
  refine ⟨rfl, rfl, rfl, ?_, ?_⟩
  · induction cs with
    | nil => rfl
    | cons c' cs' ih => simp [run_calls, init_db, ih]
  · induction es with
    | nil => rfl
    | cons e' es' ih => simp [run_calls, init_db, ih]

/-- Claim C7, witness: concrete instance of `init_db_monotonic` over `Nat`
handles. -/
theorem init_db_monotonic_witness :
    init_db (none : Option Nat) (.ok 7) = (.ok 7, some 7) ∧
    init_db (none : Option Nat) (.error "boom".data) = (.error "boom".data, none) ∧
    init_db (some 7) (.error "boom".data) = (.ok 7, some 7) ∧
    run_calls (some 7) [.error "boom".data, .ok 9] = ([.ok 7, .ok 7], some 7) ∧
    run_calls (none : Option Nat) (["e1".data, "e2".data].map Except.error) =
      (["e1".data, "e2".data].map Except.error, none) :=
  init_db_monotonic Nat 7 (.error "boom".data) [.error "boom".data, .ok 9]
    "boom".data ["e1".data, "e2".data]

/-! ### `get_schema` (src/bi_server.py lines 47-101) -/

/-- One row of `PRAGMA table_info` as the code reads it: `col[1]` name,
`col[2]` declared type, `col[3]` notnull flag, `col[4]` default. -/
structure RawCol where
  cname : PyStr
  ctype : PyStr
  notnull : Bool
  dflt : Option PyStr
deriving DecidableEq

/-- A fetched sample row, transported as a name-to-value mapping. -/
abbrev SampleRow := List (PyStr × PyStr)

/-- What the store supplies for one catalog table during `get_schema`:
its name, its column metadata, and the outcome of the sample-data query
(`SELECT * FROM <table> LIMIT 3`), which may fail. -/
structure TableData where
  name : PyStr
  cols : List RawCol
  fetchSample : Except PyStr (List SampleRow)

/-- The per-table entry of the schema reply. -/
structure TableInfo where
  columns : List RawCol
  sample_data : Option (List SampleRow)
deriving DecidableEq

/-- The loop body of `get_schema` for one table: the entry starts as
`{"columns": [...], "sample_data": None}`; the sample fetch sits in its own
`try`, so on failure only the `sample_data` assignment is skipped. -/
def processTable (t : TableData) : TableInfo :=
  let info : TableInfo := { columns := t.cols, sample_data := none }
  match t.fetchSample with
  | .ok rows => { info with sample_data := some rows }
  | .error _ => info

/-- The `for table in tables` loop of `get_schema`: walk the catalog tables
in order, skip names carrying the `sqlite_` system prefix, and collect one
entry per remaining table, in catalog order. -/
def schemaEntries : List TableData → List (PyStr × TableInfo)
  | [] => []
  | t :: ts =>
    if "sqlite_".data.isPrefixOf t.name then schemaEntries ts
    else (t.name, processTable t) :: schemaEntries ts

/-- Model of `get_schema`: the collected entries, wrapped in a successful reply. -/
def get_schema (tables : List TableData) :
    Except PyStr (List (PyStr × TableInfo)) :=
  .ok (schemaEntries tables)

theorem schemaEntries_eq_map_filter (tables : List TableData) :
    schemaEntries tables =
      (tables.filter
        (fun t => !("sqlite_".data.isPrefixOf t.name))).map
          (fun t => (t.name, processTable t)) := by
  induction tables with
  | nil => rfl
  | cons t ts ih =>
    by_cases hp : "sqlite_".data <+: t.name
    · have hb : "sqlite_".data.isPrefixOf t.name = true := by
        simpa using hp
      simp [schemaEntries, List.filter_cons, hp, hb, ih]
    · have hb : "sqlite_".data.isPrefixOf t.name = false := by
        cases hbb : "sqlite_".data.isPrefixOf t.name
        · rfl
        · exact absurd (by simpa using hbb) hp
      simp [schemaEntries, List.filter_cons, hp, hb, ih]

/-- Claim C9: the schema reply is the `ok` list holding one entry per
non-system catalog table, each entry a function of that table's own data
alone, so a failing sample fetch affects no other table and never turns the
whole reply into an error; and a table whose sample fetch fails still
appears, with its `columns` populated from the column metadata and its
`sample_data` left absent. -/
theorem get_schema_sample_failure_nonfatal (tables : List TableData) :
    get_schema tables =
      .ok ((tables.filter
        (fun t => !("sqlite_".data.isPrefixOf t.name))).map
          (fun t => (t.name, processTable t))) ∧
    (∀ t e, t.fetchSample = .error e →
      processTable t = { columns := t.cols, sample_data := none }) := by
  constructor
  · unfold get_schema
    rw [schemaEntries_eq_map_filter]
  · intro t e he
    simp [processTable, he]

/-- A catalog table whose sample-data query fails (used by the C9 witness). -/
def failingTable : TableData :=
  { name := "budgets".data,
    cols := [{ cname := "id".data, ctype := "INTEGER".data, notnull := false,
               dflt := none }],
    fetchSample := .error "no such collation".data }

/-- Claim C9, witness: concrete instance of
`get_schema_sample_failure_nonfatal` at a one-table catalog whose sample
fetch fails: the reply is still `ok`, with the table's columns populated and
`sample_data` equal to `none`. -/
theorem get_schema_sample_failure_nonfatal_witness :
    get_schema [failingTable] =
      .ok [( "budgets".data,
             { columns := [{ cname := "id".data, ctype := "INTEGER".data,
                             notnull := false, dflt := none }],
               sample_data := none } )] ∧
    processTable failingTable =
      { columns := [{ cname := "id".data, ctype := "INTEGER".data,
                      notnull := false, dflt := none }],
        sample_data := none } := by
  have h := get_schema_sample_failure_nonfatal [failingTable]
  have h2 := h.2 failingTable "no such collation".data rfl
  exact ⟨by rw [h.1]; rfl, h2⟩
